import Mathlib

/-!
# Verification of the LinkedIn Ads Optimization Decision Engine

Shallow embedding of the decision engine in `src/lambda/optimizer/handler.py`
(rule evaluator `optimize_creatives`, bid heuristic
`calculate_optimal_bid_heuristic`, bid loop `optimize_bids`, ledger append
`log_action`, orchestrator `lambda_handler`) and of the alternate bid
heuristic `calculate_optimal_bid` in `src/lambda/data_processor/handler.py`.

Python floats are modelled as rationals (`ℚ`); `round(x, 2)` is modelled as
rounding `x * 100` to the nearest integer and dividing by 100 (the half-cent
tie-breaking rule differs from CPython's float rounding only at exact
half-cents, which none of the properties below depend on).  External
collaborators (the LinkedIn API, Secrets Manager, Athena, S3) are modelled as
explicit parameters: the pause / bid-update calls as `String → Bool` outcome
functions (the source converts any exception raised by the HTTP call into a
`False` return), the credential fetch and the metrics query as
`Except String _` values (the source lets their exceptions propagate to the
top-level handler), and the S3 ledger object store as a map from partition
key (calendar day) to the list of entries its object holds.
-/

namespace Optimizer

/-- Rounding to two decimal places: model of Python `round(x, 2)`. -/
def round2 (x : ℚ) : ℚ := (round (x * 100) : ℤ) / 100

/-- Embedding of `calculate_optimal_bid_heuristic` (optimizer handler,
lines 336–364).  `TARGET_CTR = 2.0`; a zero CTR returns `current_cpc`
unchanged; otherwise the suggested bid `current_cpc * (2 / current_ctr)` is
clamped to the relative band `[0.7 * cpc, 1.5 * cpc]`, then to the absolute
band `[1.0, 15.0]`, then rounded to two decimals. -/
def calculate_optimal_bid_heuristic (current_ctr current_cpc : ℚ) : ℚ :=
  if current_ctr = 0 then current_cpc
  else
    let TARGET_CTR : ℚ := 2
    let ctr_ratio := TARGET_CTR / current_ctr
    let suggested_bid := current_cpc * ctr_ratio
    let max_increase := current_cpc * (3 / 2)
    let min_decrease := current_cpc * (7 / 10)
    let clamped_rel := max min_decrease (min max_increase suggested_bid)
    let clamped_abs := max 1 (min 15 clamped_rel)
    round2 clamped_abs

/-- Embedding of `calculate_optimal_bid` (data-processor handler,
lines 399–426).  Here the *ratio* `target_ctr / current_ctr` is clamped to
`[0.5, 2.0]` before multiplying, an optional CPA cap applies when the
conversion rate is positive, and the absolute band is `[1.0, 20.0]`.
The `pd.isna` guards have no counterpart over `ℚ` (no NaN); the
`current_ctr == 0` early return is kept. -/
def calculate_optimal_bid (current_ctr conversion_rate current_cpc
    target_ctr max_cpa : ℚ) : ℚ :=
  if current_ctr = 0 then current_cpc
  else
    let ctr_adjustment := if 0 < current_ctr then target_ctr / current_ctr else 1
    let ctr_adjustment := max (1 / 2) (min 2 ctr_adjustment)
    let suggested_bid := current_cpc * ctr_adjustment
    let suggested_bid :=
      if 0 < conversion_rate then
        min suggested_bid (max_cpa * conversion_rate / 100)
      else suggested_bid
    let suggested_bid := max 1 (min 20 suggested_bid)
    round2 suggested_bid

/-- One row of the aggregated `creative_performance` data, as produced by the
Athena query in `get_performance_data` (one row per `(creative_id,
campaign_id)` pair over the lookback window). -/
structure PerformanceRecord where
  creative_id : String
  campaign_id : String
  avg_ctr : ℚ
  avg_cpc : ℚ
  total_clicks : ℕ
  total_impressions : ℕ
  total_cost : ℚ
  total_conversions : ℕ
  deriving DecidableEq

/-- The optimizer's threshold constants (module-level environment-variable
constants `MIN_CTR_THRESHOLD`, `TOP_PERFORMER_THRESHOLD`, `MAX_CPC`,
`MIN_SAMPLE_SIZE`, `BID_CHANGE_THRESHOLD`), gathered into one value. -/
structure ThresholdConfig where
  min_ctr : ℚ
  top_performer_ctr : ℚ
  max_cpc : ℚ
  min_sample_size : ℕ
  bid_change_threshold : ℚ

/-- The literal environment-variable defaults of the optimizer handler. -/
def defaultConfig : ThresholdConfig :=
  { min_ctr := 1, top_performer_ctr := 3, max_cpc := 8,
    min_sample_size := 100, bid_change_threshold := 1 / 2 }

/-- Which pause rule fired: the two distinct reason strings of
`optimize_creatives` (`Low CTR (...) below threshold` vs
`High CPC ($...) above threshold`), modelled as an enum since the claims only
distinguish the two, not the formatted text. -/
inductive PauseReason where
  | lowCTR
  | highCPC
  deriving DecidableEq

/-- An entry of the action list built by `optimize_creatives` /
`optimize_bids`.  Mirrors the three dict shapes of the source
(`action: paused / top_performer / bid_adjustment`); for `paused`,
`metricValue` is the record's `avg_ctr` for the low-CTR rule and its
`avg_cpc` for the high-CPC rule (the `ctr` / `cpc` keys of the metrics
dict). -/
inductive Action where
  | paused (creative_id campaign_id : String) (reason : PauseReason)
      (clicks : ℕ) (cost : ℚ) (metricValue : ℚ)
  | top_performer (creative_id campaign_id : String) (ctr : ℚ)
      (clicks : ℕ) (cost : ℚ)
  | bid_adjustment (campaign_id : String) (old_bid new_bid change : ℚ)
  deriving DecidableEq

/-- The loop body of `optimize_creatives` (lines 231–278) for one record.
`pauseApi` models `pause_creative`: `true` when the platform PATCH succeeds,
`false` when it raises (the source catches every exception and returns
`False`).  The `elif` chain of the source keys on the rule *conditions*:
when rule 1's condition holds but the pause call fails, rules 2 and 3 are
not evaluated and no action is recorded. -/
def evalRecord (cfg : ThresholdConfig) (pauseApi : String → Bool)
    (r : PerformanceRecord) : List Action :=
  if r.avg_ctr < cfg.min_ctr ∧ cfg.min_sample_size ≤ r.total_clicks then
    if pauseApi r.creative_id then
      [.paused r.creative_id r.campaign_id .lowCTR
        r.total_clicks r.total_cost r.avg_ctr]
    else []
  else if cfg.max_cpc < r.avg_cpc then
    if pauseApi r.creative_id then
      [.paused r.creative_id r.campaign_id .highCPC
        r.total_clicks r.total_cost r.avg_cpc]
    else []
  else if cfg.top_performer_ctr < r.avg_ctr then
    [.top_performer r.creative_id r.campaign_id r.avg_ctr
      r.total_clicks r.total_cost]
  else []

/-- Embedding of `optimize_creatives` (lines 220–280): the per-record actions
accumulated over the dataframe rows in order. -/
def optimize_creatives (cfg : ThresholdConfig) (pauseApi : String → Bool) :
    List PerformanceRecord → List Action
  | [] => []
  | r :: rs => evalRecord cfg pauseApi r ++ optimize_creatives cfg pauseApi rs

/-- One row of the per-campaign aggregate built by the pandas `groupby` in
`optimize_bids` (mean `avg_ctr`, mean `avg_cpc`, summed `total_cost`). -/
structure CampaignAgg where
  campaign_id : String
  avg_ctr : ℚ
  avg_cpc : ℚ
  total_cost : ℚ
  deriving DecidableEq

/-- The `groupby('campaign_id').agg(...)` of `optimize_bids`: one aggregate
row per distinct campaign id.  pandas emits the groups sorted by key;
`List.dedup` gives them in a different (but fixed) order, which no property
below depends on. -/
def groupCampaigns (df : List PerformanceRecord) : List CampaignAgg :=
  ((df.map (·.campaign_id)).dedup).map fun k =>
    let grp := df.filter (fun r => r.campaign_id = k)
    { campaign_id := k,
      avg_ctr := ((grp.map (·.avg_ctr)).sum) / (grp.length : ℚ),
      avg_cpc := ((grp.map (·.avg_cpc)).sum) / (grp.length : ℚ),
      total_cost := (grp.map (·.total_cost)).sum }

/-- The loop body of `optimize_bids` (lines 301–331) for one campaign
aggregate.  The source calls `calculate_optimal_bid_heuristic` in both
branches of its `if bid_model` test, so the ML-model parameter is dropped.
`bidApi` models `update_campaign_bid` (exceptions become `False`). -/
def bidStep (cfg : ThresholdConfig) (bidApi : String → Bool)
    (c : CampaignAgg) : List Action :=
  let optimal_bid := calculate_optimal_bid_heuristic c.avg_ctr c.avg_cpc
  let bid_change := |optimal_bid - c.avg_cpc|
  if cfg.bid_change_threshold ≤ bid_change then
    if bidApi c.campaign_id then
      [.bid_adjustment c.campaign_id c.avg_cpc optimal_bid
        (optimal_bid - c.avg_cpc)]
    else []
  else []

/-- The campaign loop of `optimize_bids`, over the grouped aggregates. -/
def optimize_bids_loop (cfg : ThresholdConfig) (bidApi : String → Bool) :
    List CampaignAgg → List Action
  | [] => []
  | c :: cs => bidStep cfg bidApi c ++ optimize_bids_loop cfg bidApi cs

/-- Embedding of `optimize_bids` (lines 283–333). -/
def optimize_bids (cfg : ThresholdConfig) (bidApi : String → Bool)
    (df : List PerformanceRecord) : List Action :=
  optimize_bids_loop cfg bidApi (groupCampaigns df)

/-- Embedding of `get_performance_data` (lines 98–125): the Athena query's
`HAVING SUM(total_clicks) >= MIN_SAMPLE_SIZE` eligibility filter, applied by
the warehouse to the aggregated rows it would return.  The query's
`ORDER BY avg_ctr DESC` only permutes the rows and is not modelled; no
property below depends on row order. -/
def get_performance_data (cfg : ThresholdConfig)
    (rows : List PerformanceRecord) : List PerformanceRecord :=
  rows.filter (fun r => cfg.min_sample_size ≤ r.total_clicks)

/-- The full decided action set of one run: creative actions followed by bid
actions, over the eligibility-filtered records, exactly as `lambda_handler`
concatenates them into `all_actions`. -/
def runActions (cfg : ThresholdConfig) (pauseApi bidApi : String → Bool)
    (rows : List PerformanceRecord) : List Action :=
  let df := get_performance_data cfg rows
  optimize_creatives cfg pauseApi df ++ optimize_bids cfg bidApi df

/-- Does this action reference the given creative?  Bid adjustments carry
only a campaign id. -/
def mentionsCreative (c : String) : Action → Bool
  | .paused cid _ _ _ _ _ => cid = c
  | .top_performer cid _ _ _ _ => cid = c
  | .bid_adjustment _ _ _ _ => false

/-- The `performance_summary` dict computed by `lambda_handler`
(lines 648–654). -/
structure RunSummary where
  total_impressions : ℕ
  total_clicks : ℕ
  total_cost : ℚ
  avg_ctr : ℚ
  avg_cpc : ℚ
  deriving DecidableEq

/-- Build the summary from the eligible records. -/
def buildSummary (df : List PerformanceRecord) : RunSummary :=
  { total_impressions := (df.map (·.total_impressions)).sum,
    total_clicks := (df.map (·.total_clicks)).sum,
    total_cost := (df.map (·.total_cost)).sum,
    avg_ctr := ((df.map (·.avg_ctr)).sum) / (df.length : ℚ),
    avg_cpc := ((df.map (·.avg_cpc)).sum) / (df.length : ℚ) }

/-- The three return shapes of `lambda_handler`: the full 200 summary body,
the 200 `No data available for optimization` body, and a 500 error body. -/
inductive LambdaResponse where
  | ok (actions_taken : ℕ) (actions : List Action) (summary : RunSummary)
  | okNoData
  | error (msg : String)
  deriving DecidableEq

/-- The `statusCode` field of the returned dict. -/
def LambdaResponse.statusCode : LambdaResponse → ℕ
  | .ok _ _ _ => 200
  | .okNoData => 200
  | .error _ => 500

/-- The external world as seen by one invocation of `lambda_handler`:
the Secrets Manager fetch, the Athena query result (already aggregated rows,
before the `HAVING` filter), and the two LinkedIn API call outcomes. -/
structure Env where
  credentials : Except String String
  performance_rows : Except String (List PerformanceRecord)
  pauseApi : String → Bool
  bidApi : String → Bool

/-- Embedding of `lambda_handler` (lines 596–691).  The `try` block catches
every exception and returns a 500 body, so a failing credential fetch or a
failing Athena query produces `LambdaResponse.error`; `pause_creative`,
`update_campaign_bid`, `log_action`, `send_daily_report` and
`send_cloudwatch_metrics` all swallow their own exceptions and cannot reach
this handler.  Model loading (`load_ml_model`) returns `None` on any failure
and the loaded model is never actually used by `optimize_bids`, so it is
dropped. -/
def lambda_handler (cfg : ThresholdConfig) (env : Env) : LambdaResponse :=
  match env.credentials with
  | .error e => .error e
  | .ok _ =>
    match env.performance_rows with
    | .error e => .error e
    | .ok rows =>
      let performance_df := get_performance_data cfg rows
      if performance_df.length = 0 then .okNoData
      else
        let creative_actions := optimize_creatives cfg env.pauseApi performance_df
        let bid_actions := optimize_bids cfg env.bidApi performance_df
        let all_actions := creative_actions ++ bid_actions
        .ok all_actions.length all_actions (buildSummary performance_df)

/-- One line of the daily `logs/optimizer_actions/<date>.jsonl` object, as
written by `log_action` (lines 185–217).  The timestamp, free-text details
and metrics dict are carried along unchanged by the append and are not
needed by any property below; the two fields that identify the entry are
kept. -/
structure LedgerEntry where
  action_type : String
  resource_id : String
  deriving DecidableEq

/-- The ledger object store: partition key (calendar day) to the entries of
that day's object, in file order.  A missing object reads as `[]`
(`NoSuchKey` is caught and treated as an empty log). -/
def emptyStore : String → List LedgerEntry := fun _ => []

/-- The read–concatenate–rewrite of `log_action`: fetch the day's object,
append the JSON line, and put the whole object back. -/
def appendLedger (store : String → List LedgerEntry) (day : String)
    (e : LedgerEntry) : String → List LedgerEntry :=
  fun d => if d = day then store day ++ [e] else store d

/-- The ledger line `log_action` writes for each recorded action: action
types `pause_creative`, `identify_winner`, `adjust_bid` with the creative or
campaign id as resource id, exactly as at the three `log_action` call
sites. -/
def entryOfAction : Action → LedgerEntry
  | .paused cid _ _ _ _ _ => { action_type := "pause_creative", resource_id := cid }
  | .top_performer cid _ _ _ _ => { action_type := "identify_winner", resource_id := cid }
  | .bid_adjustment camp _ _ _ => { action_type := "adjust_bid", resource_id := camp }

/-- `log_action` with its exception handling: when the S3 write fails
(`writeOk = false`), the exception is caught inside `log_action`, the store
is left unchanged, and only a console warning is emitted. -/
def log_action_model (writeOk : Bool) (day : String) (e : LedgerEntry)
    (st : (String → List LedgerEntry) × List String) :
    (String → List LedgerEntry) × List String :=
  if writeOk then (appendLedger st.1 day e, st.2)
  else (st.1, st.2 ++ ["Failed to log action"])

/-- The ledger effect of one run.  In the source, each `actions.append` is
immediately followed by the matching `log_action` call; since `log_action`
returns nothing and swallows its own errors, the decided action list is
independent of ledger state, and the run's total ledger effect is the fold
of one append per recorded action, in action order. -/
def run_ledger (writeOk : Bool) (day : String) (acts : List Action)
    (st : (String → List LedgerEntry) × List String) :
    (String → List LedgerEntry) × List String :=
  acts.foldl (fun st a => log_action_model writeOk day (entryOfAction a) st) st

/-- Everything one invocation leaves behind: the response returned to the
caller, the ledger store, and the console log. -/
structure RunOutput where
  response : LambdaResponse
  ledger : String → List LedgerEntry
  console : List String

/-- One invocation together with its ledger side effects.  `writeOk` models
whether the S3 `put_object` inside `log_action` succeeds during this run. -/
def run_with_effects (cfg : ThresholdConfig) (env : Env) (writeOk : Bool)
    (day : String) (store0 : String → List LedgerEntry) : RunOutput :=
  match lambda_handler cfg env with
  | .ok n acts s =>
    let st := run_ledger writeOk day acts (store0, [])
    { response := .ok n acts s, ledger := st.1, console := st.2 }
  | r => { response := r, ledger := store0, console := [] }

/-- Sample eligible low-CTR record (the spec's worked example: CTR 0.8 %,
CPC $2, 150 clicks). -/
def recLowCtr : PerformanceRecord :=
  { creative_id := "C1", campaign_id := "K1", avg_ctr := 4 / 5, avg_cpc := 2,
    total_clicks := 150, total_impressions := 18750, total_cost := 300,
    total_conversions := 0 }

/-- Sample record realising the spec's bid example: campaign aggregate CTR
1.0 %, CPC $4. -/
def recLowBid : PerformanceRecord :=
  { creative_id := "cr1", campaign_id := "camp1", avg_ctr := 1, avg_cpc := 4,
    total_clicks := 150, total_impressions := 15000, total_cost := 600,
    total_conversions := 0 }

/-- Sample sub-threshold record: 50 clicks, below the 100-click minimum
sample size, with extreme CTR and CPC. -/
def recSmall : PerformanceRecord :=
  { creative_id := "c2", campaign_id := "k2", avg_ctr := 1 / 10, avg_cpc := 50,
    total_clicks := 50, total_impressions := 50000, total_cost := 2500,
    total_conversions := 0 }

/-- Sample eligible record that is simultaneously below `min_ctr` (0.5 %)
and above `max_cpc` ($9). -/
def recC7 : PerformanceRecord :=
  { creative_id := "c9", campaign_id := "k9", avg_ctr := 1 / 2, avg_cpc := 9,
    total_clicks := 150, total_impressions := 1000, total_cost := 10,
    total_conversions := 0 }

/-- Sample eligible low-CTR record whose campaign aggregate produces no bid
action (CPC already $15, the heuristic's ceiling, so the bid delta is 0). -/
def recC9 : PerformanceRecord :=
  { creative_id := "cr1", campaign_id := "camp1", avg_ctr := 9 / 10, avg_cpc := 15,
    total_clicks := 150, total_impressions := 10000, total_cost := 45,
    total_conversions := 0 }

/-- Environment for a run in which everything external succeeds and the
metrics snapshot is the single record `recC9`. -/
def envC9 : Env :=
  { credentials := .ok "tok", performance_rows := .ok [recC9],
    pauseApi := fun _ => true, bidApi := fun _ => true }

/-- Environment with valid credentials and configuration in which the Athena
metrics query fails (the polling loop in `query_athena` raises
`Exception("Query FAILED")`). -/
def envQueryFails : Env :=
  { credentials := .ok "tok", performance_rows := .error "Query FAILED",
    pauseApi := fun _ => true, bidApi := fun _ => true }

section RoundLemmas

theorem round_mono_q {x y : ℚ} (h : x ≤ y) : round x ≤ round y := by
  rw [round_eq, round_eq]
  exact Int.floor_mono (by linarith)

theorem round2_mono {x y : ℚ} (h : x ≤ y) : round2 x ≤ round2 y := by
  unfold round2
  have : round (x * 100) ≤ round (y * 100) := round_mono_q (by linarith)
  have h100 : (0 : ℚ) ≤ 100 := by norm_num
  exact div_le_div_of_nonneg_right (by exact_mod_cast this) h100

theorem le_round2_of_int_le {x : ℚ} {n : ℤ} (h : (n : ℚ) ≤ x) :
    (n : ℚ) ≤ round2 x := by
  unfold round2
  have h1 : round ((n : ℚ) * 100) ≤ round (x * 100) := round_mono_q (by nlinarith)
  have h2 : round ((n : ℚ) * 100) = n * 100 := by
    have : ((n : ℚ) * 100) = ((n * 100 : ℤ) : ℚ) := by push_cast; ring
    rw [this, round_intCast]
  rw [h2] at h1
  have : ((n * 100 : ℤ) : ℚ) ≤ ((round (x * 100) : ℤ) : ℚ) := by exact_mod_cast h1
  push_cast at this ⊢
  linarith

theorem round2_le_of_le_int {x : ℚ} {n : ℤ} (h : x ≤ (n : ℚ)) :
    round2 x ≤ (n : ℚ) := by
  unfold round2
  have h1 : round (x * 100) ≤ round ((n : ℚ) * 100) := round_mono_q (by nlinarith)
  have h2 : round ((n : ℚ) * 100) = n * 100 := by
    have : ((n : ℚ) * 100) = ((n * 100 : ℤ) : ℚ) := by push_cast; ring
    rw [this, round_intCast]
  rw [h2] at h1
  have : ((round (x * 100) : ℤ) : ℚ) ≤ ((n * 100 : ℤ) : ℚ) := by exact_mod_cast h1
  push_cast at this ⊢
  linarith

theorem round2_dist (x : ℚ) : |round2 x - x| ≤ 1 / 200 := by
  unfold round2
  have h := abs_sub_round (x * 100)
  rw [abs_sub_comm] at h
  rw [abs_le] at h ⊢
  constructor <;> [nlinarith [h.1, h.2]; nlinarith [h.1, h.2]]

end RoundLemmas

section Helpers

/-- Closed form of the optimizer's bid heuristic away from the zero-CTR
early return. -/
theorem heuristic_eq (ctr cpc : ℚ) (h : ctr ≠ 0) :
    calculate_optimal_bid_heuristic ctr cpc =
      round2 (max 1 (min 15 (max (cpc * (7 / 10))
        (min (cpc * (3 / 2)) (cpc * (2 / ctr)))))) := by
  simp only [calculate_optimal_bid_heuristic, if_neg h]

/-- Rounding keeps a value clamped into `[1, 20]` inside `[1, 20]`. -/
theorem round2_clamp_1_20 (s : ℚ) :
    1 ≤ round2 (max 1 (min 20 s)) ∧ round2 (max 1 (min 20 s)) ≤ 20 := by
  constructor
  · have h0 : ((1 : ℤ) : ℚ) ≤ max 1 (min 20 s) := by push_cast; exact le_max_left _ _
    have := le_round2_of_int_le h0
    exact_mod_cast this
  · have hle : max (1 : ℚ) (min 20 s) ≤ ((20 : ℤ) : ℚ) := by
      push_cast
      exact max_le (by norm_num) (min_le_left _ _)
    have := round2_le_of_le_int hle
    exact_mod_cast this

/-- Every action emitted for a record carries that record's creative id
as its creative reference. -/
theorem mem_evalRecord_mentions (cfg : ThresholdConfig) (api : String → Bool)
    (r : PerformanceRecord) (c : String) :
    ∀ a ∈ evalRecord cfg api r, mentionsCreative c a = decide (r.creative_id = c) := by
  intro a ha
  unfold evalRecord at ha
  split at ha
  · split at ha
    · simp at ha; subst ha; simp [mentionsCreative]
    · simp at ha
  · split at ha
    · split at ha
      · simp at ha; subst ha; simp [mentionsCreative]
      · simp at ha
    · split at ha
      · simp at ha; subst ha; simp [mentionsCreative]
      · simp at ha

/-- Filtering the creative-action list by creative id is the same as
evaluating only the records of that creative. -/
theorem optimize_creatives_filter (cfg : ThresholdConfig) (api : String → Bool)
    (c : String) :
    ∀ df : List PerformanceRecord,
      (optimize_creatives cfg api df).filter (mentionsCreative c) =
        optimize_creatives cfg api
          (df.filter (fun x => decide (x.creative_id = c))) := by
  intro df
  induction df with
  | nil => simp [optimize_creatives]
  | cons r rs ih =>
    simp only [optimize_creatives, List.filter_append, ih, List.filter_cons]
    by_cases hc : r.creative_id = c
    · rw [if_pos (by simpa using hc)]
      have hkeep : (evalRecord cfg api r).filter (mentionsCreative c) =
          evalRecord cfg api r := by
        apply List.filter_eq_self.mpr
        intro a ha
        rw [mem_evalRecord_mentions cfg api r c a ha]
        simpa using hc
      rw [hkeep, optimize_creatives]
    · rw [if_neg (by simpa using hc)]
      have hdrop : (evalRecord cfg api r).filter (mentionsCreative c) = [] := by
        apply List.filter_eq_nil_iff.mpr
        intro a ha
        rw [mem_evalRecord_mentions cfg api r c a ha]
        simpa using hc
      rw [hdrop, List.nil_append]

/-- Bid actions never reference a creative. -/
theorem optimize_bids_loop_no_creative (cfg : ThresholdConfig)
    (bapi : String → Bool) (c : String) :
    ∀ cs : List CampaignAgg,
      (optimize_bids_loop cfg bapi cs).filter (mentionsCreative c) = [] := by
  intro cs
  induction cs with
  | nil => simp [optimize_bids_loop]
  | cons x xs ih =>
    simp only [optimize_bids_loop, List.filter_append, ih, List.append_nil]
    by_cases hb : bapi x.campaign_id
    all_goals by_cases ht : cfg.bid_change_threshold ≤
      |calculate_optimal_bid_heuristic x.avg_ctr x.avg_cpc - x.avg_cpc|
    all_goals simp [bidStep, hb, ht, mentionsCreative]

/-- When rule 1 fires and the platform pause succeeds, the record's action
list is exactly the low-CTR pause. -/
theorem evalRecord_rule1 (cfg : ThresholdConfig) (api : String → Bool)
    (r : PerformanceRecord) (h1 : r.avg_ctr < cfg.min_ctr)
    (h2 : cfg.min_sample_size ≤ r.total_clicks)
    (hapi : api r.creative_id = true) :
    evalRecord cfg api r =
      [.paused r.creative_id r.campaign_id .lowCTR
        r.total_clicks r.total_cost r.avg_ctr] := by
  unfold evalRecord
  rw [if_pos ⟨h1, h2⟩, if_pos hapi]

/-- Folding ledger appends onto a store concatenates the appended entries
after the partition's existing entries. -/
theorem foldl_appendLedger (day : String) :
    ∀ (es : List LedgerEntry) (store : String → List LedgerEntry),
      (es.foldl (fun s x => appendLedger s day x) store) day = store day ++ es := by
  intro es
  induction es with
  | nil => intro store; simp
  | cons e es ih =>
    intro store
    rw [List.foldl_cons, ih]
    simp [appendLedger]

/-- The run on `envC9` decides exactly one action: the low-CTR pause of
creative `cr1` (its campaign aggregate has zero bid delta). -/
theorem handler_envC9 :
    lambda_handler defaultConfig envC9 =
      .ok 1 [.paused "cr1" "camp1" .lowCTR 150 45 (9 / 10)]
        { total_impressions := 10000, total_clicks := 150, total_cost := 45,
          avg_ctr := 9 / 10, avg_cpc := 15 } := by
  norm_num [lambda_handler, envC9, recC9, get_performance_data, defaultConfig,
    optimize_creatives, evalRecord, optimize_bids, groupCampaigns,
    optimize_bids_loop, bidStep, calculate_optimal_bid_heuristic, round2, round_eq,
    buildSummary, List.dedup_cons_of_not_mem, List.dedup_nil]

/-- With a failing ledger write, the fold leaves the store untouched and
emits one console warning per action. -/
theorem run_ledger_false (day : String) :
    ∀ (acts : List Action) (st : (String → List LedgerEntry) × List String),
      run_ledger false day acts st =
        (st.1, st.2 ++ List.replicate acts.length "Failed to log action") := by
  intro acts
  induction acts with
  | nil => intro st; simp [run_ledger]
  | cons a as ih =>
    intro st
    have hstep : run_ledger false day (a :: as) st =
        run_ledger false day as (log_action_model false day (entryOfAction a) st) := by
      simp [run_ledger]
    rw [hstep, ih]
    simp [log_action_model, List.replicate_succ]

end Helpers

/-- Claim C1: for every eligible record (clicks at or above the minimum
sample size) the rule evaluator produces at most one action, chosen by first
match in the priority order low-CTR pause, high-CPC pause, winner flag; an
eligible record below `min_ctr` — even one also above `max_cpc` — only ever
yields the low-CTR pause, never the CPC reason; and when such a record is
the only one for its creative and the platform pause succeeds, the whole
run's action list contains exactly one action referencing that creative,
namely its low-CTR `PauseCreative`. -/
theorem C1_rule_priority_unique_action (cfg : ThresholdConfig)
    (capi bapi : String → Bool) (df : List PerformanceRecord)
    (r : PerformanceRecord)
    (huniq : df.filter (fun x => decide (x.creative_id = r.creative_id)) = [r])
    (hctr : r.avg_ctr < cfg.min_ctr)
    (hclicks : cfg.min_sample_size ≤ r.total_clicks)
    (hapi : capi r.creative_id = true) :
    ((optimize_creatives cfg capi df ++ optimize_bids cfg bapi df).filter
        (mentionsCreative r.creative_id) =
      [.paused r.creative_id r.campaign_id .lowCTR
        r.total_clicks r.total_cost r.avg_ctr]) ∧
    (∀ r' : PerformanceRecord, (evalRecord cfg capi r').length ≤ 1) ∧
    (∀ r' : PerformanceRecord, r'.avg_ctr < cfg.min_ctr →
      cfg.min_sample_size ≤ r'.total_clicks →
      ∀ a ∈ evalRecord cfg capi r',
        a = .paused r'.creative_id r'.campaign_id .lowCTR
          r'.total_clicks r'.total_cost r'.avg_ctr) := by
  refine ⟨?_, ?_, ?_⟩
  · rw [List.filter_append, optimize_creatives_filter cfg capi r.creative_id df, huniq,
      optimize_bids, optimize_bids_loop_no_creative, List.append_nil, optimize_creatives,
      optimize_creatives, evalRecord_rule1 cfg capi r hctr hclicks hapi, List.append_nil]
  · intro r'
    unfold evalRecord
    split
    · split <;> simp
    · split
      · split <;> simp
      · split <;> simp
  · intro r' h1 h2 a ha
    unfold evalRecord at ha
    rw [if_pos ⟨h1, h2⟩] at ha
    by_cases hapi' : capi r'.creative_id = true
    · rw [if_pos hapi'] at ha
      simpa using ha
    · rw [if_neg hapi'] at ha
      simp at ha

/-- Witness for C1 at the spec's worked example record (CTR 0.8 %, 150
clicks) under the default thresholds, with all platform calls succeeding. -/
theorem C1_witness :
    (recLowCtr.avg_ctr < defaultConfig.min_ctr ∧
      defaultConfig.min_sample_size ≤ recLowCtr.total_clicks) ∧
    (optimize_creatives defaultConfig (fun _ => true) [recLowCtr] ++
        optimize_bids defaultConfig (fun _ => true) [recLowCtr]).filter
        (mentionsCreative recLowCtr.creative_id) =
      [.paused recLowCtr.creative_id recLowCtr.campaign_id .lowCTR
        recLowCtr.total_clicks recLowCtr.total_cost recLowCtr.avg_ctr] :=
  ⟨⟨by norm_num [recLowCtr, defaultConfig], by norm_num [recLowCtr, defaultConfig]⟩,
    (C1_rule_priority_unique_action defaultConfig (fun _ => true) (fun _ => true)
      [recLowCtr] recLowCtr (by simp [recLowCtr])
      (by norm_num [recLowCtr, defaultConfig])
      (by norm_num [recLowCtr, defaultConfig]) rfl).1⟩

/-- Claim C2 counterexample: at `current_ctr = 1.0`, `current_cpc = 4.0` the
heuristic in the source returns 6.0, not the 8.0 the claim computes — the
source clamps the suggested *bid* to `[0.7 * cpc, 1.5 * cpc]` (here
`min 6.0 8.0 = 6.0`), not the *ratio* to `[0.5, 2.0]`. -/
theorem C2_counterexample :
    calculate_optimal_bid_heuristic 1 4 = 6 ∧
      calculate_optimal_bid_heuristic 1 4 ≠ 8 := by
  constructor <;> norm_num [calculate_optimal_bid_heuristic, round2, round_eq]

/-- Claim C2 amended: the heuristic multiplies `current_cpc` by the raw
ratio `2 / current_ctr`, clamps the product to the relative band
`[0.7 * cpc, 1.5 * cpc]`, then to `[1.0, 15.0]`, and rounds to two
decimals; for `current_ctr = 1.0`, `current_cpc = 4.0` the suggested bid is
6.0, and since `|6.0 - 4.0| = 2.0 ≥ 0.50` an `AdjustBid` action (old bid
4.0, new bid 6.0) is emitted. -/
theorem C2_amended_heuristic_example :
    calculate_optimal_bid_heuristic 1 4 = 6 ∧
    (1 / 2 : ℚ) ≤ |(6 : ℚ) - 4| ∧
    optimize_bids defaultConfig (fun _ => true) [recLowBid] =
      [.bid_adjustment "camp1" 4 6 2] := by
  refine ⟨?_, by norm_num, ?_⟩
  · norm_num [calculate_optimal_bid_heuristic, round2, round_eq]
  · norm_num [optimize_bids, groupCampaigns, optimize_bids_loop, bidStep,
      calculate_optimal_bid_heuristic, round2, round_eq, defaultConfig, recLowBid,
      List.dedup_cons_of_not_mem, List.dedup_nil, List.filter]

/-- Claim C3: the ledger is append-only — an append to a partition leaves
that partition's prior entries unchanged and in order, adds exactly the new
entry at the end, leaves every other partition untouched, and appending N
entries (across any number of invocations) to the same partition starting
from an empty store yields exactly those N entries in order. -/
theorem C3_ledger_append_only (store : String → List LedgerEntry)
    (day : String) (e : LedgerEntry) :
    (appendLedger store day e) day = store day ++ [e] ∧
    (∀ d, d ≠ day → appendLedger store day e d = store d) ∧
    (∀ es : List LedgerEntry,
      (es.foldl (fun s x => appendLedger s day x) emptyStore) day = es) := by
  refine ⟨by simp [appendLedger], fun d hd => by simp [appendLedger, hd],
    fun es => ?_⟩
  rw [foldl_appendLedger]
  simp [emptyStore]

/-- Witness for C3 on a concrete store, partition and entry. -/
theorem C3_witness :
    (appendLedger emptyStore "2025-01-01"
      { action_type := "pause_creative", resource_id := "c1" }) "2025-01-01" =
        emptyStore "2025-01-01" ++
          [{ action_type := "pause_creative", resource_id := "c1" }] ∧
    (appendLedger emptyStore "2025-01-01"
      { action_type := "pause_creative", resource_id := "c1" }) "2025-01-02" =
        emptyStore "2025-01-02" :=
  ⟨(C3_ledger_append_only emptyStore "2025-01-01"
      { action_type := "pause_creative", resource_id := "c1" }).1,
    (C3_ledger_append_only emptyStore "2025-01-01"
      { action_type := "pause_creative", resource_id := "c1" }).2.1
      "2025-01-02" (by decide)⟩

/-- Claim C4: a record with fewer clicks than the minimum sample size is
excluded by the eligibility filter before any rule is evaluated, and its
presence changes nothing: the run's action set is exactly the action set
without it, whatever its CTR and CPC. -/
theorem C4_subthreshold_no_action (cfg : ThresholdConfig)
    (capi bapi : String → Bool) (r : PerformanceRecord)
    (rows : List PerformanceRecord)
    (h : r.total_clicks < cfg.min_sample_size) :
    get_performance_data cfg (r :: rows) = get_performance_data cfg rows ∧
      runActions cfg capi bapi (r :: rows) = runActions cfg capi bapi rows := by
  have hfilter : get_performance_data cfg (r :: rows) =
      get_performance_data cfg rows := by
    unfold get_performance_data
    rw [List.filter_cons_of_neg]
    simpa using Nat.not_le.mpr h
  exact ⟨hfilter, by unfold runActions; rw [hfilter]⟩

/-- Witness for C4: a 50-click record with terrible CTR and CPC contributes
no action under the default 100-click minimum. -/
theorem C4_witness :
    recSmall.total_clicks < defaultConfig.min_sample_size ∧
    runActions defaultConfig (fun _ => true) (fun _ => true) [recSmall] =
      runActions defaultConfig (fun _ => true) (fun _ => true) [] :=
  ⟨by norm_num [recSmall, defaultConfig],
    (C4_subthreshold_no_action defaultConfig (fun _ => true) (fun _ => true)
      recSmall [] (by norm_num [recSmall, defaultConfig])).2⟩

/-- Claim C5 counterexample: at the finite, non-negative input
`current_ctr = 0`, `current_cpc = 0` the heuristic returns `current_cpc`
unchanged — 0, outside the claimed interval `[1.0, 15.0]`. -/
theorem C5_counterexample :
    calculate_optimal_bid_heuristic 0 0 = 0 ∧
      ¬ (1 ≤ calculate_optimal_bid_heuristic 0 0 ∧
          calculate_optimal_bid_heuristic 0 0 ≤ 15) := by
  constructor <;> norm_num [calculate_optimal_bid_heuristic]

/-- Claim C5 amended: for every input with `current_ctr ≠ 0` the heuristic's
output lies in `[1.0, 15.0]`; at `current_ctr = 0` it returns `current_cpc`
unchanged, which may lie outside that interval. -/
theorem C5_amended_bounds (ctr cpc : ℚ) (h : ctr ≠ 0) :
    1 ≤ calculate_optimal_bid_heuristic ctr cpc ∧
      calculate_optimal_bid_heuristic ctr cpc ≤ 15 := by
  rw [heuristic_eq ctr cpc h]
  constructor
  · have h0 : ((1 : ℤ) : ℚ) ≤ max 1 (min 15 (max (cpc * (7 / 10))
        (min (cpc * (3 / 2)) (cpc * (2 / ctr))))) := by
      push_cast
      exact le_max_left _ _
    have := le_round2_of_int_le h0
    exact_mod_cast this
  · have hle : max (1 : ℚ) (min 15 (max (cpc * (7 / 10))
        (min (cpc * (3 / 2)) (cpc * (2 / ctr))))) ≤ ((15 : ℤ) : ℚ) := by
      push_cast
      exact max_le (by norm_num) (min_le_left _ _)
    have := round2_le_of_le_int hle
    exact_mod_cast this

/-- Witness for C5 amended at `current_ctr = 1`, `current_cpc = 4`. -/
theorem C5_witness :
    (1 : ℚ) ≠ 0 ∧
      (1 ≤ calculate_optimal_bid_heuristic 1 4 ∧
        calculate_optimal_bid_heuristic 1 4 ≤ 15) :=
  ⟨by norm_num, C5_amended_bounds 1 4 (by norm_num)⟩

/-- Claim C6: the bid heuristic is monotone — for a fixed `current_cpc` and
CTR values `0 < ctr1 ≤ ctr2`, the suggested bid at `ctr1` is at least the
suggested bid at `ctr2` (lowering a positive CTR never decreases the
suggested bid). -/
theorem C6_bid_heuristic_monotone (cpc ctr1 ctr2 : ℚ) (h1 : 0 < ctr1)
    (h12 : ctr1 ≤ ctr2) :
    calculate_optimal_bid_heuristic ctr2 cpc ≤
      calculate_optimal_bid_heuristic ctr1 cpc := by
  have h2 : 0 < ctr2 := lt_of_lt_of_le h1 h12
  rw [heuristic_eq ctr1 cpc (ne_of_gt h1), heuristic_eq ctr2 cpc (ne_of_gt h2)]
  apply round2_mono
  rcases le_or_lt 0 cpc with hc | hc
  · have hdiv : 2 / ctr2 ≤ 2 / ctr1 :=
      div_le_div_of_nonneg_left (by norm_num) h1 h12
    have hs : cpc * (2 / ctr2) ≤ cpc * (2 / ctr1) :=
      mul_le_mul_of_nonneg_left hdiv hc
    gcongr
  · have hband : cpc * (3 / 2) ≤ cpc * (7 / 10) := by nlinarith
    have hconst : ∀ s : ℚ,
        max (cpc * (7 / 10)) (min (cpc * (3 / 2)) s) = cpc * (7 / 10) := by
      intro s
      exact max_eq_left (le_trans (min_le_left _ _) hband)
    rw [hconst, hconst]

/-- Witness for C6 at `cpc = 4`, `ctr1 = 1 ≤ ctr2 = 2`. -/
theorem C6_witness :
    (0 : ℚ) < 1 ∧ (1 : ℚ) ≤ 2 ∧
      calculate_optimal_bid_heuristic 2 4 ≤ calculate_optimal_bid_heuristic 1 4 :=
  ⟨by norm_num, by norm_num,
    C6_bid_heuristic_monotone 4 1 2 (by norm_num) (by norm_num)⟩

/-- Claim C7 counterexample: an eligible record below `min_ctr` and above
`max_cpc` whose platform pause call fails produces nothing at all — the
run's action list is empty, so no record carrying a failed outcome and its
cause exists anywhere in the run output (only a console print records the
failure in the source). -/
theorem C7_counterexample :
    optimize_creatives defaultConfig (fun _ => false) [recC7] = [] ∧
      runActions defaultConfig (fun _ => false) (fun _ => false) [recC7] = [] := by
  constructor
  · norm_num [optimize_creatives, evalRecord, defaultConfig, recC7]
  · norm_num [runActions, get_performance_data, optimize_creatives, evalRecord,
      optimize_bids, groupCampaigns, optimize_bids_loop, bidStep, defaultConfig,
      recC7, calculate_optimal_bid_heuristic, round2, round_eq,
      List.dedup_cons_of_not_mem, List.dedup_nil]

/-- Claim C7 amended: when a record triggers a pause rule and the platform
call fails, that record is simply dropped from the action list (no failed
outcome is recorded), and the failure does not prevent any subsequent record
in the batch from being evaluated and acted on: the run's actions are
exactly those of the remaining records. -/
theorem C7_amended_failure_skips_action (cfg : ThresholdConfig)
    (api : String → Bool) (r : PerformanceRecord)
    (rs : List PerformanceRecord)
    (hfires : (r.avg_ctr < cfg.min_ctr ∧ cfg.min_sample_size ≤ r.total_clicks) ∨
      (¬(r.avg_ctr < cfg.min_ctr ∧ cfg.min_sample_size ≤ r.total_clicks) ∧
        cfg.max_cpc < r.avg_cpc))
    (hapi : api r.creative_id = false) :
    optimize_creatives cfg api (r :: rs) = optimize_creatives cfg api rs := by
  have he : evalRecord cfg api r = [] := by
    unfold evalRecord
    rcases hfires with ⟨h1, h2⟩ | ⟨hn, h3⟩
    · rw [if_pos ⟨h1, h2⟩, if_neg (by simp [hapi])]
    · rw [if_neg hn, if_pos h3, if_neg (by simp [hapi])]
  rw [optimize_creatives, he, List.nil_append]

/-- Witness for C7 amended: the pause of creative `c9` fails while the
following record's pause succeeds; the batch result equals the result for
the remaining records alone. -/
theorem C7_witness :
    ((recC7.avg_ctr < defaultConfig.min_ctr ∧
        defaultConfig.min_sample_size ≤ recC7.total_clicks) ∨
      (¬(recC7.avg_ctr < defaultConfig.min_ctr ∧
          defaultConfig.min_sample_size ≤ recC7.total_clicks) ∧
        defaultConfig.max_cpc < recC7.avg_cpc)) ∧
    optimize_creatives defaultConfig (fun s => decide (s = "C1"))
        [recC7, recLowCtr] =
      optimize_creatives defaultConfig (fun s => decide (s = "C1")) [recLowCtr] :=
  ⟨Or.inl ⟨by norm_num [recC7, defaultConfig], by norm_num [recC7, defaultConfig]⟩,
    C7_amended_failure_skips_action defaultConfig (fun s => decide (s = "C1"))
      recC7 [recLowCtr]
      (Or.inl ⟨by norm_num [recC7, defaultConfig],
        by norm_num [recC7, defaultConfig]⟩)
      (by simp [recC7])⟩

/-- Claim C8 counterexample: with valid configuration and credentials but a
failing metrics query, the run does not complete with a summary object — it
returns a 500 error response, so invalid configuration is not the only hard
stop. -/
theorem C8_counterexample :
    lambda_handler defaultConfig envQueryFails = .error "Query FAILED" ∧
      (lambda_handler defaultConfig envQueryFails).statusCode = 500 :=
  ⟨rfl, rfl⟩

/-- Claim C8 amended: once credentials and the metrics query succeed, a run
always completes with a 200 response for every record set and every pattern
of platform-call failures — the all-failed case included — and zero eligible
records yields the empty-run response; failing credentials or a failing
metrics query are additional hard stops beyond invalid configuration. -/
theorem C8_amended_run_completes (cfg : ThresholdConfig) (tok : String)
    (rows : List PerformanceRecord) (capi bapi : String → Bool) :
    (lambda_handler cfg
      { credentials := .ok tok, performance_rows := .ok rows,
        pauseApi := capi, bidApi := bapi }).statusCode = 200 ∧
    (get_performance_data cfg rows = [] →
      lambda_handler cfg
        { credentials := .ok tok, performance_rows := .ok rows,
          pauseApi := capi, bidApi := bapi } = .okNoData) := by
  constructor
  · unfold lambda_handler
    dsimp only
    by_cases h : (get_performance_data cfg rows).length = 0
    · rw [if_pos h]; rfl
    · rw [if_neg h]; rfl
  · intro h
    unfold lambda_handler
    dsimp only
    rw [if_pos (by simp [h])]

/-- Witness for C8 amended: an empty snapshot with every platform call
failing still returns a 200 empty-run response. -/
theorem C8_witness :
    (lambda_handler defaultConfig
      { credentials := .ok "tok", performance_rows := .ok [],
        pauseApi := fun _ => false, bidApi := fun _ => false }).statusCode = 200 ∧
    lambda_handler defaultConfig
      { credentials := .ok "tok", performance_rows := .ok [],
        pauseApi := fun _ => false, bidApi := fun _ => false } = .okNoData :=
  ⟨(C8_amended_run_completes defaultConfig "tok" [] (fun _ => false)
      (fun _ => false)).1,
    (C8_amended_run_completes defaultConfig "tok" [] (fun _ => false)
      (fun _ => false)).2 rfl⟩

/-- Claim C9 counterexample: in a run that applies a pause action, a failing
ledger write leaves the caller-visible response *identical* to the response
of the same run with a working ledger — the ledgers genuinely differ, yet
no run-level warning reaches the caller, refuting that the failure is
surfaced to the caller. -/
theorem C9_counterexample :
    (run_with_effects defaultConfig envC9 false "2025-06-01" emptyStore).response =
      (run_with_effects defaultConfig envC9 true "2025-06-01" emptyStore).response ∧
    (run_with_effects defaultConfig envC9 false "2025-06-01" emptyStore).ledger
        "2025-06-01" = [] ∧
    (run_with_effects defaultConfig envC9 true "2025-06-01" emptyStore).ledger
        "2025-06-01" =
      [{ action_type := "pause_creative", resource_id := "cr1" }] := by
  refine ⟨?_, ?_, ?_⟩ <;>
    simp [run_with_effects, handler_envC9, run_ledger, log_action_model,
      appendLedger, entryOfAction, emptyStore]

/-- Claim C9 amended: a failing ledger write is invisible to the caller —
the response equals the working-ledger response (so all applied platform
actions remain reported in the run's action list), the store is left
unwritten, and the only surfacing is one console warning per action. -/
theorem C9_amended_ledger_failure (cfg : ThresholdConfig) (env : Env)
    (day : String) (store0 : String → List LedgerEntry) :
    (run_with_effects cfg env false day store0).response =
      (run_with_effects cfg env true day store0).response ∧
    (run_with_effects cfg env false day store0).ledger = store0 ∧
    (∀ n acts s,
      (run_with_effects cfg env false day store0).response = .ok n acts s →
      (run_with_effects cfg env false day store0).console =
        List.replicate acts.length "Failed to log action") := by
  unfold run_with_effects
  cases h : lambda_handler cfg env with
  | ok n acts s =>
    refine ⟨rfl, ?_, ?_⟩
    · dsimp only
      rw [run_ledger_false]
    · intro n' acts' s' hresp
      dsimp only at hresp ⊢
      rw [run_ledger_false]
      cases hresp
      simp
  | okNoData =>
    exact ⟨rfl, rfl, fun n' acts' s' hresp => by cases hresp⟩
  | error m =>
    exact ⟨rfl, rfl, fun n' acts' s' hresp => by cases hresp⟩

/-- Witness for C9 amended on the concrete run `envC9`, whose single decided
action is the pause of creative `cr1`. -/
theorem C9_witness :
    (run_with_effects defaultConfig envC9 false "2025-06-01" emptyStore).ledger =
      emptyStore ∧
    (run_with_effects defaultConfig envC9 false "2025-06-01" emptyStore).console =
      List.replicate 1 "Failed to log action" := by
  have h := C9_amended_ledger_failure defaultConfig envC9 "2025-06-01" emptyStore
  refine ⟨h.2.1, ?_⟩
  have hresp : (run_with_effects defaultConfig envC9 false "2025-06-01"
      emptyStore).response =
      .ok 1 [.paused "cr1" "camp1" .lowCTR 150 45 (9 / 10)]
        { total_impressions := 10000, total_clicks := 150, total_cost := 45,
          avg_ctr := 9 / 10, avg_cpc := 15 } := by
    simp [run_with_effects, handler_envC9]
  simpa using h.2.2 1 _ _ hresp

/-- Claim C10: for positive CTR and non-negative CPC one step of the
optimizer's heuristic stays (up to the half-cent rounding slack 1/200)
inside the relative band `[0.7 * cpc, 1.5 * cpc]` except where the absolute
floor 1.0 or ceiling 15.0 overrides it — formally between
`min 15 (0.7 * cpc) - 1/200` and `max 1 (1.5 * cpc) + 1/200`; the data
processor's alternate heuristic instead clamps the ratio to `[0.5, 2.0]`
and caps at ceiling 20.0, its output lying in `[1, 20]`: at `ctr = 0.5 %`,
`cpc = 4` the optimizer's band gives `4 * 1.5 = 6.0` while the ratio clamp
gives `4 * 2 = 8.0`, and at `cpc = 16` the two ceilings give 15.0 versus
20.0. -/
theorem C10_relative_band_and_alternate (ctr cpc conv : ℚ) (h : 0 < ctr)
    (hc : 0 ≤ cpc) :
    (min 15 (cpc * (7 / 10)) - 1 / 200 ≤ calculate_optimal_bid_heuristic ctr cpc ∧
      calculate_optimal_bid_heuristic ctr cpc ≤ max 1 (cpc * (3 / 2)) + 1 / 200) ∧
    (1 ≤ calculate_optimal_bid ctr conv cpc 2 100 ∧
      calculate_optimal_bid ctr conv cpc 2 100 ≤ 20) ∧
    (calculate_optimal_bid_heuristic (1 / 2) 4 = 6 ∧
      calculate_optimal_bid (1 / 2) 0 4 2 100 = 8) ∧
    (calculate_optimal_bid_heuristic (1 / 2) 16 = 15 ∧
      calculate_optimal_bid (1 / 2) 0 16 2 100 = 20) := by
  refine ⟨?_, ?_, ⟨?_, ?_⟩, ⟨?_, ?_⟩⟩
  · rw [heuristic_eq ctr cpc (ne_of_gt h)]
    set w := max (cpc * (7 / 10)) (min (cpc * (3 / 2)) (cpc * (2 / ctr))) with hw
    have hlow : min 15 (cpc * (7 / 10)) ≤ max 1 (min 15 w) := by
      have hmm : min (15 : ℚ) (cpc * (7 / 10)) ≤ min 15 w :=
        min_le_min le_rfl (le_max_left _ _)
      exact le_trans hmm (le_max_right _ _)
    have hhigh : max 1 (min 15 w) ≤ max 1 (cpc * (3 / 2)) := by
      apply max_le (le_max_left _ _)
      have hw2 : w ≤ cpc * (3 / 2) := by
        apply max_le
        · nlinarith
        · exact min_le_left _ _
      exact le_trans (min_le_right _ _) (le_trans hw2 (le_max_right _ _))
    have hd := round2_dist (max 1 (min 15 w))
    rw [abs_le] at hd
    constructor <;> nlinarith [hd.1, hd.2]
  · have hne : ctr ≠ 0 := ne_of_gt h
    simp only [calculate_optimal_bid, if_neg hne]
    exact round2_clamp_1_20 _
  · norm_num [calculate_optimal_bid_heuristic, round2, round_eq]
  · norm_num [calculate_optimal_bid, round2, round_eq]
  · norm_num [calculate_optimal_bid_heuristic, round2, round_eq]
  · norm_num [calculate_optimal_bid, round2, round_eq]

/-- Witness for C10 at `ctr = 1`, `cpc = 4`, `conv = 0`. -/
theorem C10_witness :
    ((0 : ℚ) < 1 ∧ (0 : ℚ) ≤ 4) ∧
    (min 15 ((4 : ℚ) * (7 / 10)) - 1 / 200 ≤ calculate_optimal_bid_heuristic 1 4 ∧
      calculate_optimal_bid_heuristic 1 4 ≤ max 1 ((4 : ℚ) * (3 / 2)) + 1 / 200) :=
  ⟨⟨by norm_num, by norm_num⟩,
    (C10_relative_band_and_alternate 1 4 0 (by norm_num) (by norm_num)).1⟩

end Optimizer
